import Mathlib

/-!
Verification of the Guarded Pipeline Core of the MAF-AGUI-Azure-Template
repository: the input-security filter, the flight-price tools and the
two-stage price-to-chart workflow, and the Cosmos-backed bounded
conversation-history store.  Python code is shallowly embedded as pure
Lean functions; external capabilities (the language model, the chart
renderer, the Cosmos container) are abstracted as function parameters.
-/

/-! ## Python string semantics: whitespace and str.strip -/

/-- The ASCII whitespace characters recognized by Python str.isspace and
str.strip: space, tab, newline, carriage return, vertical tab, form feed. -/
def isPySpace (c : Char) : Bool :=
  c = ' ' || c = '\t' || c = '\n' || c = '\x0d' || c = '\x0b' || c = '\x0c'

/-- Strip leading and trailing whitespace from a list of characters. -/
def stripChars (l : List Char) : List Char :=
  ((l.dropWhile isPySpace).reverse.dropWhile isPySpace).reverse

/-- Model of Python str.strip(): remove leading and trailing whitespace. -/
def pyStrip (s : String) : String :=
  String.mk (stripChars s.data)

/-- A string is empty or whitespace-only exactly when all of its characters
are whitespace (vacuously true for the empty string).  This models the
Python truthiness test `not s or not s.strip()`. -/
def isBlank (s : String) : Bool :=
  s.data.all isPySpace

/-! ## Exception types (src/src/exceptions.py)

Each custom exception class carries a user-facing message. -/

/-- Tool execution error (class ToolError in src/src/exceptions.py). -/
structure ToolError where
  message : String
deriving DecidableEq, Repr

/-- Workflow execution error (class WorkflowError in src/src/exceptions.py). -/
structure WorkflowError where
  message : String
deriving DecidableEq, Repr

/-! ## get_flight_price (src/src/services/tools.py) -/

/-- The dictionary returned by get_flight_price.  The Python float price is
modelled as a rational number; the literal 350.0 denotes exactly 350. -/
structure FlightPriceDict where
  departure : String
  destination : String
  price : Rat
  currency : String
  airline : String
  flight_class : String
deriving DecidableEq, Repr

/-- Embedding of get_flight_price: raises ToolError when a location is
empty or strips to empty, otherwise returns the fixed price record with
both locations stripped.  The Python guard `not departure or not
departure.strip()` is equivalent to `pyStrip departure = ""` since the
empty string strips to itself. -/
def get_flight_price (departure destination : String) :
    Except ToolError FlightPriceDict :=
  if pyStrip departure = "" then
    Except.error ⟨"Departure location cannot be empty"⟩
  else if pyStrip destination = "" then
    Except.error ⟨"Destination location cannot be empty"⟩
  else
    Except.ok
      { departure := pyStrip departure
        destination := pyStrip destination
        price := 350
        currency := "USD"
        airline := "Air China"
        flight_class := "Economy" }

/-! ## Two-stage workflow (src/src/services/workflow.py) -/

/-- Flight ticket price information (src/src/schemas/flight.py).  The
optional airline and flight_class fields default to None. -/
structure FlightPriceInfo where
  departure : String
  destination : String
  price : Rat
  currency : String := "USD"
  airline : Option String := none
  flight_class : Option String := none
deriving DecidableEq, Repr

/-- Stage 1 of the pipeline (executor get_flight_info): run the flight
agent requesting a structured FlightPriceInfo; send its serialized form to
the next stage when a value is produced, otherwise send the failure-marker
string.  The external model call is the parameter agentRun (returning the
optional result.value) and pydantic model_dump_json is the parameter
dumpJson.  The returned list is the sequence of messages sent via
ctx.send_message, in order. -/
def get_flight_info (agentRun : String → Option FlightPriceInfo)
    (dumpJson : FlightPriceInfo → String) (query : String) : List String :=
  match agentRun query with
  | some v => [dumpJson v]
  | none => ["Failed to get flight information"]

/-- An event observed while streaming the workflow: either a
WorkflowOutputEvent carrying data, or any other event kind. -/
inductive WfEvent where
  | output (data : String)
  | other
deriving DecidableEq, Repr

/-- Embedding of run_flight_chart_workflow (src/src/services/tools.py).
The external pipeline run_stream is the parameter pipeline, producing the
ordered list of streamed events.  The second component of the result
records whether the pipeline was invoked: the empty-query guard raises
WorkflowError before the workflow import and run, so it leaves the flag
false.  The loop keeps the data of the last WorkflowOutputEvent, starting
from the empty string, and `if not result` re-raises on the empty string. -/
def run_flight_chart_workflow (pipeline : String → List WfEvent)
    (query : String) : Except WorkflowError String × Bool :=
  if pyStrip query = "" then
    (Except.error ⟨"Query content cannot be empty"⟩, false)
  else
    let events := pipeline query
    let result := events.foldl
      (fun acc e => match e with | .output d => d | .other => acc) ""
    if result = "" then (Except.error ⟨"Workflow returned no result"⟩, true)
    else (Except.ok result, true)

/-! ## Security filter (src/middleware.py) -/

/-- The verdict of the security filter on untrusted text. -/
inductive Classification where
  | allowed
  | blocked (reason : String)
deriving DecidableEq, Repr

/-- Modelled from the spec: the repository module src/middleware.py (the
security filter used by security_agent_middleware) is absent from the
source tree, only its tests remain, so its classification algorithm is
modelled from the specification.  Default value of the process-wide
MAX_INPUT_LENGTH bound. -/
def MAX_INPUT_LENGTH : Nat := 10000

/-- Modelled from the spec: classify_text applies the rules of the
security filter in order with short-circuit.  Step 1 blocks when the
text length exceeds maxLen (boundary-inclusive: exactly the limit
passes) with reason "exceeds maximum length"; step 2 blocks when some
injection pattern matches, here abstracted as the predicate inj, with
reason "interferes with the system"; step 3, the sensitive-keyword scan,
only logs and never changes the verdict, so the text is then allowed. -/
def classify_text (maxLen : Nat) (inj : String → Bool) (text : String) :
    Classification :=
  if text.length > maxLen then Classification.blocked "exceeds maximum length"
  else if inj text then Classification.blocked "interferes with the system"
  else Classification.allowed

/-! ## Cosmos DB chat message store (src/src/db/cosmos_chat_store.py) -/

/-- Handle to a Cosmos container, identified by the names get_container
receives; the model never looks inside it. -/
structure ContainerHandle where
  container_name : String
  database_name : String
deriving DecidableEq, Repr

/-- State model for serializing the store (class CosmosStoreState). -/
structure CosmosStoreState where
  thread_id : String
  session_id : String
  container_name : String := "conversations"
  database_name : String := "maf_db"
  max_messages : Option Int := none
deriving DecidableEq, Repr

/-- The mutable attributes of a CosmosChatMessageStore instance.  The
Python `int | None` field max_messages is an optional integer; the
privately cached container handle _container starts out None and is
populated lazily by the container property. -/
structure CosmosChatMessageStore where
  session_id : String
  thread_id : String
  container_name : String := "conversations"
  database_name : String := "maf_db"
  max_messages : Option Int := none
  _container : Option ContainerHandle := none
deriving DecidableEq, Repr

/-- The per-thread document persisted in Cosmos, generic in the type of
serialized messages; timestamps are abstract instants. -/
structure ThreadDoc (SMsg : Type) where
  id : String
  session_id : String
  thread_id : String
  messages : List SMsg
  created_at : Nat
  updated_at : Nat
deriving DecidableEq, Repr

/-- Python slicing l[i:] for an integer i: a nonnegative start drops that
many elements, a negative start counts from the end, clamped at the list
bounds.  In particular l[0:] is the whole list, so l[-0:] is too. -/
def pySliceFrom (i : Int) (l : List α) : List α :=
  if 0 ≤ i then l.drop i.toNat else l.drop ((l.length : Int) + i).toNat

/-- Embedding of add_messages.  The Cosmos container is reduced to the one
document this store can touch (db = none models read_item raising
CosmosResourceNotFoundError); ser models _serialize_message; now is the
current instant.  Returns the container content after the call together
with a flag recording whether upsert_item was issued.  An empty batch
returns immediately; otherwise the document is read or freshly created,
the serialized batch is appended, updated_at is refreshed, the list is
cut to the last max_messages entries by the Python slice
messages[-max_messages:] when a limit is configured and exceeded, and the
document is upserted. -/
def add_messages {Msg SMsg : Type} (ser : Msg → SMsg)
    (store : CosmosChatMessageStore) (db : Option (ThreadDoc SMsg))
    (now : Nat) (messages : List Msg) : Option (ThreadDoc SMsg) × Bool :=
  if messages.isEmpty then (db, false)
  else
    let doc0 : ThreadDoc SMsg :=
      match db with
      | some d => d
      | none =>
        { id := store.thread_id
          session_id := store.session_id
          thread_id := store.thread_id
          messages := []
          created_at := now
          updated_at := now }
    let appended := doc0.messages ++ messages.map ser
    let doc1 := { doc0 with messages := appended, updated_at := now }
    let doc2 :=
      match store.max_messages with
      | some n =>
        if (appended.length : Int) > n then
          { doc1 with messages := pySliceFrom (-n) appended }
        else doc1
      | none => doc1
    (some doc2, true)

/-- Embedding of list_messages: return the stored sequence oldest first,
each entry through _deserialize_message (the parameter deser), or the
empty list when the document was never written. -/
def list_messages {Msg SMsg : Type} (deser : SMsg → Msg)
    (db : Option (ThreadDoc SMsg)) : List Msg :=
  match db with
  | some d => d.messages.map deser
  | none => []

/-- Run a sequence of add_messages calls in order, starting from the
given container content, discarding the upsert flags. -/
def runBatches {Msg SMsg : Type} (ser : Msg → SMsg)
    (store : CosmosChatMessageStore) (now : Nat)
    (db : Option (ThreadDoc SMsg)) (batches : List (List Msg)) :
    Option (ThreadDoc SMsg) :=
  batches.foldl (fun d b => (add_messages ser store d now b).1) db

/-- The messages held by the container content, without deserialization. -/
def msgsOf {SMsg : Type} (db : Option (ThreadDoc SMsg)) : List SMsg :=
  match db with
  | some d => d.messages
  | none => []

/-- The last n elements of a list (all of it when it is shorter). -/
def lastN (n : Nat) (l : List α) : List α :=
  l.drop (l.length - n)

/-- Embedding of serialize: build the CosmosStoreState for the current
configuration.  model_dump of this pydantic model is a mapping with five
keys, hence always truthy. -/
def serialize (store : CosmosChatMessageStore) : CosmosStoreState :=
  { thread_id := store.thread_id
    session_id := store.session_id
    container_name := store.container_name
    database_name := store.database_name
    max_messages := store.max_messages }

/-- The argument passed to update_from_state, as the Python truthiness
test sees it: None and the empty mapping are falsy; a non-empty mapping
that validates as CosmosStoreState is modelled by the state it validates
to. -/
inductive SerializedState where
  | pyNone
  | emptyDict
  | stateDict (s : CosmosStoreState)
deriving DecidableEq, Repr

/-- Embedding of update_from_state: a falsy argument leaves the store
untouched; otherwise the five configuration fields are overwritten from
the validated state and the cached container handle is reset to None so
the next access reconnects under the new configuration. -/
def update_from_state (store : CosmosChatMessageStore)
    (st : SerializedState) : CosmosChatMessageStore :=
  match st with
  | .pyNone => store
  | .emptyDict => store
  | .stateDict s =>
    { store with
      thread_id := s.thread_id
      session_id := s.session_id
      container_name := s.container_name
      database_name := s.database_name
      max_messages := s.max_messages
      _container := none }

/-- Example store used to evaluate theorems on concrete inputs. -/
def storeEx : CosmosChatMessageStore :=
  { session_id := "session_1", thread_id := "thread_1"
    max_messages := some 3 }

/-- Example store configured with max_messages = 0. -/
def storeEx0 : CosmosChatMessageStore :=
  { session_id := "session_1", thread_id := "thread_1"
    max_messages := some 0 }

/-! ## Deep serialization (_deep_serialize) -/

/-- Universe of Python values as _deep_serialize dispatches on them, each
constructor standing for the first branch of the source that fires on the
object.  An enum member carries its underlying value; a datetime carries
its isoformat rendering; an object with a model_dump or dict method
carries the result of calling it; a dataclass carries its asdict
rendering; a generic object carries the public and private entries of its
__dict__; any other object carries its str() rendering.  Python floats
are modelled as rationals and dict keys as strings. -/
inductive PyVal where
  | pyNone
  | str (s : String)
  | int (n : Int)
  | float (q : Rat)
  | bool (b : Bool)
  | enum (value : PyVal)
  | datetime (iso : String)
  | modelDump (dump : PyVal)
  | dictMethod (d : PyVal)
  | dataclass (asdict : PyVal)
  | list (items : List PyVal)
  | dict (entries : List (String × PyVal))
  | obj (fields : List (String × PyVal))
  | strFallback (repr : String)

mutual
/-- Embedding of _deep_serialize, following the branch order of the
source: None and primitives pass through; an enum is reduced to its value
without recursing; a datetime becomes its isoformat string; objects with
model_dump or dict and dataclasses recurse into their mapping form; lists
and dicts recurse elementwise (dict keys are passed through); a generic
object recurses into its __dict__ with names starting with an underscore
dropped; anything else falls back to its textual representation. -/
def deepSerialize : PyVal → PyVal
  | .pyNone => .pyNone
  | .str s => .str s
  | .int n => .int n
  | .float q => .float q
  | .bool b => .bool b
  | .enum v => v
  | .datetime iso => .str iso
  | .modelDump d => deepSerialize d
  | .dictMethod d => deepSerialize d
  | .dataclass d => deepSerialize d
  | .list items => .list (deepSerializeList items)
  | .dict entries => .dict (deepSerializeEntries entries)
  | .obj fields => .dict (deepSerializePublic fields)

  | .strFallback r => .str r

/-- Serialize each element of a list, in order. -/
def deepSerializeList : List PyVal → List PyVal
  | [] => []
  | x :: xs => deepSerialize x :: deepSerializeList xs

/-- Serialize each value of a mapping, keeping keys. -/
def deepSerializeEntries : List (String × PyVal) → List (String × PyVal)
  | [] => []
  | (k, v) :: rest => (k, deepSerialize v) :: deepSerializeEntries rest

/-- Serialize the __dict__ of a generic object: entries whose name starts
with an underscore are skipped, the rest are serialized keeping keys. -/
def deepSerializePublic : List (String × PyVal) → List (String × PyVal)
  | [] => []
  | (k, v) :: rest =>
    if k.startsWith "_" then deepSerializePublic rest
    else (k, deepSerialize v) :: deepSerializePublic rest
end

mutual
/-- A value is JSON-representable when it is built only from None,
strings, numbers, booleans, lists and string-keyed mappings of such
values: exactly the values json serialization accepts. -/
def isJsonVal : PyVal → Bool
  | .pyNone => true
  | .str _ => true
  | .int _ => true
  | .float _ => true
  | .bool _ => true
  | .list items => isJsonList items
  | .dict entries => isJsonEntries entries
  | _ => false

/-- Every element of the list is JSON-representable. -/
def isJsonList : List PyVal → Bool
  | [] => true
  | x :: xs => isJsonVal x && isJsonList xs

/-- Every value of the mapping is JSON-representable. -/
def isJsonEntries : List (String × PyVal) → Bool
  | [] => true
  | (_, v) :: rest => isJsonVal v && isJsonEntries rest
end

/-- A primitive value: one the enum branch may carry so that returning it
unreduced still yields JSON-representable output. -/
def isPrimitive : PyVal → Bool
  | .pyNone => true
  | .str _ => true
  | .int _ => true
  | .float _ => true
  | .bool _ => true
  | _ => false

mutual
/-- Every enum member occurring in the value carries a primitive
underlying value. -/
def goodEnums : PyVal → Bool
  | .pyNone => true
  | .str _ => true
  | .int _ => true
  | .float _ => true
  | .bool _ => true
  | .enum v => isPrimitive v
  | .datetime _ => true
  | .modelDump d => goodEnums d
  | .dictMethod d => goodEnums d
  | .dataclass d => goodEnums d
  | .list items => goodEnumsList items
  | .dict entries => goodEnumsEntries entries
  | .obj fields => goodEnumsEntries fields
  | .strFallback _ => true

/-- goodEnums on every element of a list. -/
def goodEnumsList : List PyVal → Bool
  | [] => true
  | x :: xs => goodEnums x && goodEnumsList xs

/-- goodEnums on every value of a mapping. -/
def goodEnumsEntries : List (String × PyVal) → Bool
  | [] => true
  | (_, v) :: rest => goodEnums v && goodEnumsEntries rest
end

/-! ## Lemmas about stripping -/

/-- dropWhile removes everything exactly when every element satisfies the
predicate. -/
theorem dropWhile_eq_nil_iff_all {α : Type} {p : α → Bool} {l : List α} :
    l.dropWhile p = [] ↔ l.all p = true := by
  induction l with
  | nil => simp
  | cons a l ih => cases h : p a <;> simp [List.dropWhile_cons, h, ih]

/-- Dropping a satisfied prefix does not change whether all elements
satisfy the predicate. -/
theorem all_dropWhile {α : Type} {p : α → Bool} {l : List α} :
    (l.dropWhile p).all p = l.all p := by
  induction l with
  | nil => rfl
  | cons a l ih => cases h : p a <;> simp [List.dropWhile_cons, h, ih]

/-- Stripping yields the empty list exactly on all-whitespace input. -/
theorem stripChars_eq_nil_iff {l : List Char} :
    stripChars l = [] ↔ l.all isPySpace = true := by
  unfold stripChars
  rw [List.reverse_eq_nil_iff, dropWhile_eq_nil_iff_all, List.all_reverse,
    all_dropWhile]

/-- A string built from a character list is empty exactly when the list is. -/
theorem string_mk_eq_empty_iff {l : List Char} : String.mk l = "" ↔ l = [] :=
  ⟨fun h => congrArg String.data h, fun h => by rw [h]⟩

/-- Python strip returns the empty string exactly on empty or
whitespace-only input. -/
theorem pyStrip_eq_empty_iff {s : String} :
    pyStrip s = "" ↔ isBlank s = true := by
  unfold pyStrip isBlank
  rw [string_mk_eq_empty_iff]
  exact stripChars_eq_nil_iff

/-! ## Claim theorems: filter, tools, workflow, store state -/

/-- C1: for every inbound text, classification blocks with the reason
"exceeds maximum length" exactly when the text length exceeds the
configured bound (default MAX_INPUT_LENGTH = 10000), independently of
content and of the injection rules; text exactly at the bound passes the
filter whenever no injection pattern matches it. -/
theorem classify_text_length_spec (maxLen : Nat) (inj : String → Bool)
    (t : String) :
    MAX_INPUT_LENGTH = 10000
    ∧ (classify_text maxLen inj t
        = Classification.blocked "exceeds maximum length"
        ↔ t.length > maxLen)
    ∧ (t.length = maxLen → inj t = false →
        classify_text maxLen inj t = Classification.allowed) := by
  refine ⟨rfl, ?_, ?_⟩
  · unfold classify_text
    by_cases h : t.length > maxLen
    · simp [h]
    · cases hi : inj t <;> simp [h, hi]
  · intro hlen hinj
    unfold classify_text
    rw [if_neg (by omega), hinj, if_neg (by simp)]

/-- Witness for C1: with bound 5 and no injection rules, a 6-character
text is blocked for length and a 5-character text is allowed. -/
theorem classify_text_length_witness :
    classify_text 5 (fun _ => false) "abcdef"
      = Classification.blocked "exceeds maximum length"
    ∧ classify_text 5 (fun _ => false) "abcde" = Classification.allowed :=
  ⟨(classify_text_length_spec 5 (fun _ => false) "abcdef").2.1.mpr (by decide),
   (classify_text_length_spec 5 (fun _ => false) "abcde").2.2 (by decide) rfl⟩

/-- C3: get_flight_price raises ToolError exactly when departure or
destination is empty or whitespace-only, and otherwise returns the record
with both locations stripped, price 350.0, currency USD, airline
Air China and Economy class. -/
theorem get_flight_price_spec (dep dst : String) :
    ((∃ e, get_flight_price dep dst = Except.error e)
      ↔ (isBlank dep = true ∨ isBlank dst = true))
    ∧ (isBlank dep = false → isBlank dst = false →
        get_flight_price dep dst = Except.ok
          ⟨pyStrip dep, pyStrip dst, 350, "USD", "Air China", "Economy"⟩) := by
  unfold get_flight_price
  by_cases h1 : pyStrip dep = ""
  · have hb1 := pyStrip_eq_empty_iff.mp h1
    simp [h1, hb1]
  · have hb1 : isBlank dep = false := by
      cases hb : isBlank dep
      · rfl
      · exact absurd (pyStrip_eq_empty_iff.mpr hb) h1
    by_cases h2 : pyStrip dst = ""
    · have hb2 := pyStrip_eq_empty_iff.mp h2
      simp [h1, h2, hb1, hb2]
    · have hb2 : isBlank dst = false := by
        cases hb : isBlank dst
        · rfl
        · exact absurd (pyStrip_eq_empty_iff.mpr hb) h2
      simp [h1, h2, hb1, hb2]

/-- Witness for C3 at the documented example inputs. -/
theorem get_flight_price_spec_witness :
    get_flight_price "  Beijing  " "  Tokyo  " = Except.ok
      ⟨pyStrip "  Beijing  ", pyStrip "  Tokyo  ", 350, "USD", "Air China",
        "Economy"⟩
    ∧ pyStrip "  Beijing  " = "Beijing" ∧ pyStrip "  Tokyo  " = "Tokyo" :=
  ⟨(get_flight_price_spec "  Beijing  " "  Tokyo  ").2 (by decide) (by decide),
   by decide, by decide⟩

/-- C4: on an empty or whitespace-only query, run_flight_chart_workflow
raises WorkflowError and the pipeline is never invoked (the second
component of the model records whether run_stream was reached). -/
theorem run_flight_chart_workflow_empty (pipeline : String → List WfEvent)
    (q : String) (hq : isBlank q = true) :
    run_flight_chart_workflow pipeline q =
      (Except.error ⟨"Query content cannot be empty"⟩, false) := by
  unfold run_flight_chart_workflow
  rw [if_pos (pyStrip_eq_empty_iff.mpr hq)]

/-- Witness for C4 on the empty query and a pipeline that is never used. -/
theorem run_flight_chart_workflow_empty_witness :
    run_flight_chart_workflow (fun _ => []) "" =
      (Except.error ⟨"Query content cannot be empty"⟩, false) :=
  run_flight_chart_workflow_empty (fun _ => []) "" (by decide)

/-- C5: stage price of the pipeline always completes, sending exactly one
message to stage chart: the serialized record when the structured
extraction produced a value, and the failure-marker string otherwise. -/
theorem get_flight_info_sends_one (agentRun : String → Option FlightPriceInfo)
    (dumpJson : FlightPriceInfo → String) (q : String) :
    (get_flight_info agentRun dumpJson q).length = 1
    ∧ get_flight_info agentRun dumpJson q =
        [match agentRun q with
         | some v => dumpJson v
         | none => "Failed to get flight information"] := by
  cases h : agentRun q <;> simp [get_flight_info, h]

/-- C6: serialize followed by update_from_state on a fresh store
reproduces the original five-field configuration tuple exactly. -/
theorem serialize_roundtrip (orig fresh : CosmosChatMessageStore) :
    (update_from_state fresh (SerializedState.stateDict (serialize orig))).session_id
        = orig.session_id
    ∧ (update_from_state fresh (SerializedState.stateDict (serialize orig))).thread_id
        = orig.thread_id
    ∧ (update_from_state fresh (SerializedState.stateDict (serialize orig))).container_name
        = orig.container_name
    ∧ (update_from_state fresh (SerializedState.stateDict (serialize orig))).database_name
        = orig.database_name
    ∧ (update_from_state fresh (SerializedState.stateDict (serialize orig))).max_messages
        = orig.max_messages :=
  ⟨rfl, rfl, rfl, rfl, rfl⟩

/-- C7: restoring from any validated non-empty serialized state discards
the cached container handle, so the next access reconnects. -/
theorem update_from_state_resets_container (st : CosmosStoreState)
    (store : CosmosChatMessageStore) :
    (update_from_state store (SerializedState.stateDict st))._container
      = none :=
  rfl

/-- C8: add_messages on the empty batch is a complete no-op: the container
content (document, messages, timestamps) is returned unchanged — in
particular no document is created when none exists — and no upsert is
issued (flag false).  The store configuration is not part of the result
because add_messages never writes it. -/
theorem add_messages_empty_noop {Msg SMsg : Type} (ser : Msg → SMsg)
    (store : CosmosChatMessageStore) (db : Option (ThreadDoc SMsg))
    (now : Nat) :
    add_messages ser store db now [] = (db, false) :=
  rfl

/-- C10: update_from_state with a falsy argument (None or the empty
mapping) leaves the store completely unchanged, including the cached
container handle. -/
theorem update_from_state_falsy_noop (store : CosmosChatMessageStore) :
    update_from_state store SerializedState.pyNone = store
    ∧ update_from_state store SerializedState.emptyDict = store :=
  ⟨rfl, rfl⟩

/-! ## Lemmas about the retention suffix -/

/-- The suffix kept by lastN has the expected length. -/
theorem length_lastN {α : Type} (n : Nat) (l : List α) :
    (lastN n l).length = min n l.length := by
  simp [lastN]
  omega

/-- A list no longer than the bound is kept whole. -/
theorem lastN_of_length_le {α : Type} {n : Nat} {l : List α}
    (h : l.length ≤ n) : lastN n l = l := by
  unfold lastN
  rw [Nat.sub_eq_zero_of_le h, List.drop_zero]

/-- Taking the last n elements twice around an append collapses: trimming
the left part first does not change the final suffix. -/
theorem lastN_append_left {α : Type} (n : Nat) (a b : List α) :
    lastN n (lastN n a ++ b) = lastN n (a ++ b) := by
  unfold lastN
  rw [List.drop_append_eq_append_drop, List.drop_append_eq_append_drop,
    List.drop_drop]
  simp only [List.length_append, List.length_drop]
  congr 2 <;> omega

/-- lastN commutes with map. -/
theorem lastN_map {α β : Type} (f : α → β) (n : Nat) (l : List α) :
    (lastN n l).map f = lastN n (l.map f) := by
  simp [lastN, List.map_drop]

/-- The Python slice l[-n:] with n at least 1 keeps the last n elements. -/
theorem pySliceFrom_neg {α : Type} (n : Nat) (hn : 1 ≤ n) (l : List α) :
    pySliceFrom (-(n : Int)) l = lastN n l := by
  unfold pySliceFrom lastN
  rw [if_neg (by omega)]
  congr 1
  omega

/-- One non-empty add_messages call leaves in the document exactly the
last n entries of the previously stored messages followed by the newly
serialized batch, when a positive limit n is configured. -/
theorem add_messages_msgs {Msg SMsg : Type} (ser : Msg → SMsg)
    (store : CosmosChatMessageStore) (db : Option (ThreadDoc SMsg))
    (now : Nat) (n : Nat) (hmax : store.max_messages = some (n : Int))
    (hn : 1 ≤ n) (b : List Msg) (hb : b ≠ []) :
    msgsOf (add_messages ser store db now b).1
      = lastN n (msgsOf db ++ b.map ser) := by
  have hb' : b.isEmpty = false := by simpa [List.isEmpty_iff] using hb
  cases db with
  | none =>
    simp only [add_messages, hb', Bool.false_eq_true, if_false, hmax, msgsOf,
      List.nil_append, apply_ite (ThreadDoc.messages)]
    split
    · rw [pySliceFrom_neg n hn]
    · rename_i hlen
      exact (lastN_of_length_le (by exact_mod_cast Int.not_lt.mp hlen)).symm
  | some d =>
    simp only [add_messages, hb', Bool.false_eq_true, if_false, hmax, msgsOf,
      apply_ite (ThreadDoc.messages)]
    split
    · rw [pySliceFrom_neg n hn]
    · rename_i hlen
      exact (lastN_of_length_le (by exact_mod_cast Int.not_lt.mp hlen)).symm

/-- Invariant of a sequence of add_messages calls: if the document holds
the last n entries of some history cur, then after running any further
batches it holds the last n entries of cur extended by those batches. -/
theorem runBatches_msgs {Msg SMsg : Type} (ser : Msg → SMsg)
    (store : CosmosChatMessageStore) (now : Nat) (n : Nat)
    (hmax : store.max_messages = some (n : Int)) (hn : 1 ≤ n) :
    ∀ (batches : List (List Msg)) (db : Option (ThreadDoc SMsg))
      (cur : List SMsg), msgsOf db = lastN n cur →
      msgsOf (runBatches ser store now db batches)
        = lastN n (cur ++ (batches.flatten).map ser) := by
  intro batches
  induction batches with
  | nil =>
    intro db cur h
    simpa [runBatches] using h
  | cons b bs ih =>
    intro db cur h
    have hstep : runBatches ser store now db (b :: bs)
        = runBatches ser store now ((add_messages ser store db now b).1) bs :=
      rfl
    rw [hstep]
    by_cases hb : b = []
    · subst hb
      have hid : (add_messages ser store db now ([] : List Msg)).1 = db := rfl
      rw [hid]
      have := ih db cur h
      simpa using this
    · have hmsgs := add_messages_msgs ser store db now n hmax hn b hb
      rw [h, lastN_append_left] at hmsgs
      have := ih ((add_messages ser store db now b).1) (cur ++ b.map ser) hmsgs
      simpa [List.map_append, List.append_assoc] using this

/-- list_messages is the stored sequence mapped through deserialization. -/
theorem list_messages_eq_map {Msg SMsg : Type} (deser : SMsg → Msg)
    (db : Option (ThreadDoc SMsg)) :
    list_messages deser db = (msgsOf db).map deser := by
  cases db <;> rfl

/-- C2 (amended: limit at least 1): for a store configured with
max_messages = n with 1 ≤ n, after any sequence of add_messages calls on
a fresh thread, list_messages returns exactly the last n elements of the
concatenation of all appended batches in call order, hence holds at most
n messages, oldest dropped first and never reordered.  The serialization
round-trip of single messages is the hypothesis hround.  With n = 0 the
claim fails on the code: the Python slice messages[-0:] keeps the whole
list, see the counterexample. -/
theorem store_retention_spec {Msg SMsg : Type} (ser : Msg → SMsg)
    (deser : SMsg → Msg) (store : CosmosChatMessageStore) (now : Nat)
    (n : Nat) (batches : List (List Msg))
    (hmax : store.max_messages = some (n : Int)) (hn : 1 ≤ n)
    (hround : ∀ m, deser (ser m) = m) :
    list_messages deser (runBatches ser store now none batches)
      = lastN n batches.flatten
    ∧ (list_messages deser (runBatches ser store now none batches)).length
        ≤ n := by
  have hmain := runBatches_msgs ser store now n hmax hn batches none []
    (by simp [msgsOf, lastN])
  rw [List.nil_append] at hmain
  have hlist : list_messages deser (runBatches ser store now none batches)
      = lastN n batches.flatten := by
    rw [list_messages_eq_map, hmain, lastN_map, List.map_map,
      show deser ∘ ser = id from funext hround, List.map_id]
  refine ⟨hlist, ?_⟩
  rw [hlist, length_lastN]
  omega

/-- Witness for C2 with limit 3 and two batches of two messages each:
the retained suffix is the last three in order. -/
theorem store_retention_witness :
    list_messages (fun m : Nat => m)
      (runBatches (fun m : Nat => m) storeEx 0 none [[1, 2], [3, 4]])
      = [2, 3, 4] := by
  have h := store_retention_spec (fun m : Nat => m) (fun m : Nat => m)
    storeEx 0 3 [[1, 2], [3, 4]] rfl (by decide) (fun m => rfl)
  exact h.1.trans (by decide)

/-- C2 counterexample: with max_messages = 0 the claim as stated fails.
The invariant asks for at most 0 retained messages, but after one
add_messages call of one message the store retains it: the code trims
with the slice messages[-0:], which keeps everything. -/
theorem store_retention_counterexample :
    storeEx0.max_messages = some 0
    ∧ list_messages (fun m : String => m)
        ((add_messages (fun m : String => m) storeEx0 none 0 ["m1"]).1)
        = ["m1"]
    ∧ ¬ ((list_messages (fun m : String => m)
        ((add_messages (fun m : String => m) storeEx0 none 0 ["m1"]).1)).length
          ≤ 0) :=
  ⟨rfl, by decide, by decide⟩

/-! ## Claim theorems: deep serialization -/

/-- A primitive value is JSON-representable as it stands. -/
theorem isPrimitive_isJson {v : PyVal} (h : isPrimitive v = true) :
    isJsonVal v = true := by
  cases v <;> simp [isPrimitive] at h <;> rfl

mutual
/-- Deep serialization of a value whose enum members all carry primitive
underlying values produces JSON-representable output. -/
theorem goodEnums_isJson : ∀ v : PyVal, goodEnums v = true →
    isJsonVal (deepSerialize v) = true
  | .pyNone, _ => rfl
  | .str _, _ => rfl
  | .int _, _ => rfl
  | .float _, _ => rfl
  | .bool _, _ => rfl
  | .enum v, h => isPrimitive_isJson (by simpa [goodEnums] using h)
  | .datetime _, _ => rfl
  | .modelDump d, h => goodEnums_isJson d (by simpa [goodEnums] using h)
  | .dictMethod d, h => goodEnums_isJson d (by simpa [goodEnums] using h)
  | .dataclass d, h => goodEnums_isJson d (by simpa [goodEnums] using h)
  | .list items, h => goodEnumsList_isJson items (by simpa [goodEnums] using h)
  | .dict entries, h =>
    goodEnumsEntries_isJson entries (by simpa [goodEnums] using h)
  | .obj fields, h =>
    goodEnumsPublic_isJson fields (by simpa [goodEnums] using h)
  | .strFallback _, _ => rfl

/-- List version of goodEnums_isJson. -/
theorem goodEnumsList_isJson : ∀ l : List PyVal, goodEnumsList l = true →
    isJsonList (deepSerializeList l) = true
  | [], _ => rfl
  | x :: xs, h => by
    have hx : goodEnums x = true ∧ goodEnumsList xs = true := by
      simpa [goodEnumsList, Bool.and_eq_true] using h
    simp only [deepSerializeList, isJsonList, Bool.and_eq_true]
    exact ⟨goodEnums_isJson x hx.1, goodEnumsList_isJson xs hx.2⟩

/-- Mapping version of goodEnums_isJson. -/
theorem goodEnumsEntries_isJson :
    ∀ l : List (String × PyVal), goodEnumsEntries l = true →
    isJsonEntries (deepSerializeEntries l) = true
  | [], _ => rfl
  | (k, v) :: rest, h => by
    have hv : goodEnums v = true ∧ goodEnumsEntries rest = true := by
      simpa [goodEnumsEntries, Bool.and_eq_true] using h
    simp only [deepSerializeEntries, isJsonEntries, Bool.and_eq_true]
    exact ⟨goodEnums_isJson v hv.1, goodEnumsEntries_isJson rest hv.2⟩

/-- Version of goodEnums_isJson for the public entries of a __dict__. -/
theorem goodEnumsPublic_isJson :
    ∀ l : List (String × PyVal), goodEnumsEntries l = true →
    isJsonEntries (deepSerializePublic l) = true
  | [], _ => rfl
  | (k, v) :: rest, h => by
    have hv : goodEnums v = true ∧ goodEnumsEntries rest = true := by
      simpa [goodEnumsEntries, Bool.and_eq_true] using h
    simp only [deepSerializePublic]
    split
    · exact goodEnumsPublic_isJson rest hv.2
    · simp only [isJsonEntries, Bool.and_eq_true]
      exact ⟨goodEnums_isJson v hv.1, goodEnumsPublic_isJson rest hv.2⟩
end

/-- C9 (amended: every enum member carries a primitive underlying value):
deep serialization is a total function of the value — it never raises —
and its output is JSON-representable; an enum member whose value is not
primitive is the one exception, passed through unreduced (still without
raising), see the counterexample. -/
theorem deepSerialize_total_json (v : PyVal) (h : goodEnums v = true) :
    isJsonVal (deepSerialize v) = true :=
  goodEnums_isJson v h

/-- Witness for C9 on a nested object containing an enum of an int, a
private field, a datetime, a pydantic-style dump and a fallback value. -/
theorem deepSerialize_total_json_witness :
    goodEnums (PyVal.obj [("x", PyVal.enum (PyVal.int 5)),
      ("_private", PyVal.strFallback "hidden"),
      ("when", PyVal.datetime "2024-01-01T00:00:00+00:00"),
      ("inner", PyVal.modelDump (PyVal.dict [("a", PyVal.list
        [PyVal.bool true, PyVal.pyNone])])),
      ("rest", PyVal.strFallback "object at 0x0")]) = true
    ∧ isJsonVal (deepSerialize (PyVal.obj [("x", PyVal.enum (PyVal.int 5)),
      ("_private", PyVal.strFallback "hidden"),
      ("when", PyVal.datetime "2024-01-01T00:00:00+00:00"),
      ("inner", PyVal.modelDump (PyVal.dict [("a", PyVal.list
        [PyVal.bool true, PyVal.pyNone])])),
      ("rest", PyVal.strFallback "object at 0x0")])) = true :=
  ⟨rfl, deepSerialize_total_json _ rfl⟩

/-- C9 counterexample: an enum member whose underlying value is a datetime
is returned by _deep_serialize as that raw datetime object, which is not
JSON-representable (the enum branch returns obj.value without recursing),
so not every input value is reduced to JSON-representable output. -/
theorem deepSerialize_counterexample :
    deepSerialize (PyVal.enum (PyVal.datetime "2020-01-01T00:00:00+00:00"))
      = PyVal.datetime "2020-01-01T00:00:00+00:00"
    ∧ isJsonVal (PyVal.datetime "2020-01-01T00:00:00+00:00") = false :=
  ⟨rfl, rfl⟩
